import Mathlib

/-!
# Verification of the county-statistics ETL pipelines

Shallow embedding of the two pipelines of this repository
(`Business Index/main.py` and `EducationIndex/main.py`) and proofs about
them.

Modelling conventions:
* JSON objects / Python dicts are association lists `List (String × v)`
  with Python's insertion semantics (update in place, else append).
* A pandas `DataFrame` built from a list of records is modelled by its
  list of record rows (Business Index pipeline, where only rows and the
  added `County` / `DataType` columns are observed), or by an ordered
  column map `List (String × List CellVal)` (Education pipeline, whose
  transformation manipulates columns).
* The network is an oracle: each call site owns a trace
  `Nat → Outcome` giving the outcome of each successive attempt
  (transport error, JSON decode error, some other exception, or a
  well-formed response body).  The credential travels in the request
  parameters and does not influence the embedded control flow beyond the
  truthiness checks present in the source.
* Numbers are `ℚ` (the scripts' numeric work is integral/decimal);
  `time.sleep` and file writing are recorded as counters / artifact
  names in the run result.
-/

/-- A cell of a table: a string, a number, or pandas' missing value. -/
inductive CellVal where
  | str (s : String)
  | num (q : ℚ)
  | nan
deriving DecidableEq, Repr

/-- A Python dict / JSON object with `CellVal` values (insertion order kept). -/
abbrev PyDict := List (String × CellVal)

/-- Python `d[k] = v` on an association list: update the existing key in
place, otherwise append at the end.  This is also pandas' semantics for
`df[col] = ...` at the column level. -/
def assocSet {β : Type} (l : List (String × β)) (k : String) (v : β) :
    List (String × β) :=
  if (List.lookup k l).isSome then
    l.map (fun p => if p.1 = k then (k, v) else p)
  else
    l ++ [(k, v)]

/-- Outcome of one attempt of the two fetch loops, before the
body-shape-specific handling. -/
inductive BeaBody where
  /-- `'BEAAPI' in data and 'Results' in data['BEAAPI']` and `'Data' in results`:
  the data array (a list of record objects). -/
  | dataArr (recs : List PyDict)
  /-- `'Error' in results`: a well-formed provider error payload. -/
  | errorPayload
  /-- wrapper present but neither `'Data'` nor `'Error'` in `Results`. -/
  | noDataNoError
  /-- `'BEAAPI'`/`'Results'` wrapper keys missing. -/
  | missingWrapper
deriving DecidableEq, Repr

/-- What one `requests.get` attempt of `get_bea_data` produces. -/
inductive BeaOutcome where
  /-- `requests.exceptions.RequestException` (connection error or
  `raise_for_status`). -/
  | transportErr
  /-- body arrived but `response.json()` raised `json.JSONDecodeError`. -/
  | jsonErr
  /-- any other exception (the final `except Exception` arm). -/
  | otherErr
  /-- a parsed JSON body. -/
  | ok (body : BeaBody)
deriving DecidableEq, Repr

/-- Result of one whole fetch call: the returned value plus how many
attempts were issued and how many times `time.sleep` ran. -/
structure FetchRun (α : Type) where
  result : Option α
  attempts : Nat
  sleeps : Nat
deriving DecidableEq, Repr

/-- The retry loop of `get_bea_data` (`Business Index/main.py` lines 52-95).
`attempt` is the Python loop variable, `fuel` the remaining iterations of
`range(max_retries)` (so `attempt + fuel = max_retries` at every call from
`get_bea_data`). -/
def beaAttempts (trace : Nat → BeaOutcome) (max_retries : Nat) :
    Nat → Nat → FetchRun (List PyDict)
  | _, 0 => ⟨none, 0, 0⟩
  | attempt, fuel + 1 =>
    match trace attempt with
    | .ok body =>
      match body with
      | .dataArr recs => ⟨some recs, 1, 0⟩      -- return results['Data']
      | .errorPayload => ⟨none, 1, 0⟩           -- BEA API Error: return None
      | .noDataNoError => ⟨none, 1, 0⟩          -- unexpected format: return None
      | .missingWrapper => ⟨none, 1, 0⟩         -- unexpected format: return None
    | .jsonErr =>
      if attempt < max_retries - 1 then
        let rest := beaAttempts trace max_retries (attempt + 1) fuel
        ⟨rest.result, rest.attempts + 1, rest.sleeps + 1⟩
      else ⟨none, 1, 0⟩                          -- max retries reached
    | .transportErr =>
      if attempt < max_retries - 1 then
        let rest := beaAttempts trace max_retries (attempt + 1) fuel
        ⟨rest.result, rest.attempts + 1, rest.sleeps + 1⟩
      else ⟨none, 1, 0⟩                          -- max retries reached
    | .otherErr => ⟨none, 1, 0⟩                  -- unexpected error: return None

/-- `get_bea_data` (`Business Index/main.py`): issue up to `max_retries`
attempts against the oracle `trace`.  The request parameters (key, fips,
year, line code) select which trace the caller passes in. -/
def get_bea_data (trace : Nat → BeaOutcome) (max_retries : Nat) :
    FetchRun (List PyDict) :=
  beaAttempts trace max_retries 0 max_retries

/-- What one `requests.get` attempt of `get_census_data_by_county`
produces; a well-formed body is the JSON array-of-arrays the census API
returns (header row then value rows). -/
inductive CensusOutcome where
  | transportErr
  | jsonErr
  | otherErr
  | ok (data : List (List String))
deriving DecidableEq, Repr

/-- Python's `dict(pairs)`: later bindings overwrite earlier ones, first
insertion position is kept. -/
def pyDictPairs (pairs : List (String × String)) : List (String × String) :=
  pairs.foldl (fun d p => assocSet d p.1 p.2) []

/-- The `fips_codes` lookup table of `get_census_data_by_county`. -/
def censusFips (county_name : String) : Option String :=
  List.lookup county_name
    [("New Castle", "003"), ("Kent", "001"), ("Sussex", "005")]

/-- The retry loop of `get_census_data_by_county`
(`EducationIndex/main.py` lines 52-88); same shape as `beaAttempts`, with
the census body handling: `len(data) > 1` yields `dict(zip(data[0], data[1]))`,
otherwise `None`. -/
def censusAttempts (trace : Nat → CensusOutcome) (max_retries : Nat) :
    Nat → Nat → FetchRun (List (String × String))
  | _, 0 => ⟨none, 0, 0⟩
  | attempt, fuel + 1 =>
    match trace attempt with
    | .ok data =>
      match data with
      | columns :: values :: _ =>
        ⟨some (pyDictPairs (columns.zip values)), 1, 0⟩
      | _ => ⟨none, 1, 0⟩                        -- no data beyond the header
    | .jsonErr =>
      if attempt < max_retries - 1 then
        let rest := censusAttempts trace max_retries (attempt + 1) fuel
        ⟨rest.result, rest.attempts + 1, rest.sleeps + 1⟩
      else ⟨none, 1, 0⟩
    | .transportErr =>
      if attempt < max_retries - 1 then
        let rest := censusAttempts trace max_retries (attempt + 1) fuel
        ⟨rest.result, rest.attempts + 1, rest.sleeps + 1⟩
      else ⟨none, 1, 0⟩
    | .otherErr => ⟨none, 1, 0⟩

/-- `get_census_data_by_county` (`EducationIndex/main.py`): the FIPS
lookup guards the loop; an unknown county returns `None` with no attempt. -/
def get_census_data_by_county (county_name : String)
    (trace : Nat → CensusOutcome) (max_retries : Nat) :
    FetchRun (List (String × String)) :=
  match censusFips county_name with
  | none => ⟨none, 0, 0⟩
  | some _ => censusAttempts trace max_retries 0 max_retries

/-! ## Column-oriented DataFrame model (Education pipeline) -/

/-- A pandas `DataFrame`, as an ordered map column name → column values. -/
abbrev Df := List (String × List CellVal)

/-- `col in df.columns`. -/
def hasCol (df : Df) (c : String) : Bool := (List.lookup c df).isSome

/-- `df[c]`, defaulting to the empty column (unreachable where used: every
use site is guarded by `hasCol`). -/
def getColD (df : Df) (c : String) : List CellVal :=
  (List.lookup c df).getD []

/-- The number of rows of a frame (length of its first column). -/
def nRows (df : Df) : Nat :=
  match df with
  | [] => 0
  | (_, col) :: _ => col.length

/-- `df[c] = vs` (column assignment). -/
def setCol (df : Df) (c : String) (vs : List CellVal) : Df :=
  assocSet df c vs

/-- `df[c] = scalar`: broadcast a scalar over all rows. -/
def setColConst (df : Df) (c : String) (v : CellVal) : Df :=
  setCol df c (List.replicate (nRows df) v)

/-- `df.rename(columns={old: nw})`. -/
def renameCol (df : Df) (old nw : String) : Df :=
  df.map (fun p => if p.1 = old then (nw, p.2) else p)

/-- `df.empty` (no columns or no rows). -/
def dfEmpty (df : Df) : Bool := df.isEmpty || nRows df == 0

/-- A frame is rectangular: all columns have the same length.  pandas
maintains this invariant for every `DataFrame`. -/
def isRect (df : Df) : Bool := df.all (fun p => p.2.length == nRows df)

/-- First-occurrence deduplication, preserving order. -/
def firstDedup (l : List String) : List String :=
  l.foldl (fun acc x => if acc.contains x then acc else acc ++ [x]) []

/-- `pd.concat(frames)` for a non-empty list of frames: columns in order
of first appearance, missing columns padded with `NaN`.  (`pd.concat([])`
raises; callers model that case separately.) -/
def dfConcat (frames : List Df) : Df :=
  (firstDedup (frames.flatMap (fun f => f.map Prod.fst))).map (fun c =>
    (c, frames.flatMap (fun f =>
      if hasCol f c then getColD f c else List.replicate (nRows f) .nan)))

/-- `pd.DataFrame([record])`: a one-row frame from one dict. -/
def dfOfRecord (r : List (String × String)) : Df :=
  r.map (fun p => (p.1, [CellVal.str p.2]))

/-- Digit run → number, for the numeric coercion model. -/
def digitsToNat? (cs : List Char) : Option Nat :=
  if cs ≠ [] && cs.all (·.isDigit) then
    some (cs.foldl (fun n c => n * 10 + (c.toNat - '0'.toNat)) 0)
  else none

/-- Unsigned decimal literal (`"123"` or `"123.45"`) → `ℚ`. -/
def parsePosDec (cs : List Char) : Option ℚ :=
  match cs.splitOn '.' with
  | [as] => (digitsToNat? as).map (fun n => (n : ℚ))
  | [as, bs] =>
    match digitsToNat? as, digitsToNat? bs with
    | some na, some nb => some ((na : ℚ) + (nb : ℚ) / (10 : ℚ) ^ bs.length)
    | _, _ => none
  | _ => none

/-- Decimal literal with optional sign → `ℚ`.  Models the successful
cases of `pd.to_numeric` on the integer/decimal strings the census API
returns; anything else coerces to `NaN` below. -/
def parseNumeric (s : String) : Option ℚ :=
  match s.toList with
  | '-' :: rest => (parsePosDec rest).map (fun q => -q)
  | cs => parsePosDec cs

/-- One cell under `pd.to_numeric(..., errors='coerce')`. -/
def toNumericCell : CellVal → CellVal
  | .str s => match parseNumeric s with
    | some q => .num q
    | none => .nan
  | .num q => .num q
  | .nan => .nan

/-- Elementwise division of two (numeric) cells; `NaN` propagates.  In
the program the divisor is the constant `100`, so the zero case never
arises; it is mapped to `NaN` here. -/
def cellDiv : CellVal → CellVal → CellVal
  | .num a, .num b => if b = 0 then .nan else .num (a / b)
  | _, _ => .nan

/-- `transform_census_data` (`EducationIndex/main.py` lines 90-113). -/
def transform_census_data (o : Option Df) : Option Df :=
  match o with
  | none => none
  | some census_df =>
    if hasCol census_df "B01001_001E" then
      let df1 := renameCol census_df "B01001_001E" "Total Population"
      let df2 := setCol df1 "Total Population"
        ((getColD df1 "Total Population").map toNumericCell)
      let df3 := setColConst df2 "Area (sq mi)" (.num 100)
      if hasCol df3 "Area (sq mi)" && hasCol df3 "Total Population" then
        some (setCol df3 "Population Density (per sq mi)"
          (List.zipWith cellDiv (getColD df3 "Total Population")
            (getColD df3 "Area (sq mi)")))
      else some df3
    else some census_df                           -- warning, frame returned as-is

/-! ## Business Index pipeline -/

def DELAWARE_COUNTIES : List String := ["New Castle", "Kent", "Sussex"]

/-- How a `process_state` run ended (statuses of both pipelines). -/
inductive RunStatus where
  | notImplemented   -- "State ... not yet implemented."
  | missingCounties  -- "Could not fetch county population data ..."
  | noKey            -- "API key is required ..."
  | nameErr          -- NameError from the unbound geo_fips (unreachable)
  | saved            -- "County-wise dataset stored ..."
  | noData           -- "No BEA data to save ..." / "No census data to save ..."
  | concatRaised     -- ValueError raised by pd.concat([]) (Education pipeline)
deriving DecidableEq, Repr

def BEA_LINE_CODE_GDP : Nat := 10

def BEA_LINE_CODE_GDP_CAPITA : Nat := 70

def BEA_LINE_CODE_ANNUAL_GDP_GROWTH : Nat := 95

/-- Python truthiness of the optional credential (`if api_key:`),
shared by both pipelines. -/
def keyTruthy : Option String → Bool
  | none => false
  | some s => s ≠ ""

namespace BI

/-- `get_county_population_data` (`Business Index/main.py` lines 19-31):
the single-column county frame, modelled by its `County` column. -/
def get_county_population_data (state : String) : Option (List String) :=
  if state = "Delaware" then some DELAWARE_COUNTIES else none

/-- The county → GeoFips `if/elif` chain of `process_state` (lines
127-133); `none` means the chain binds nothing (the Python `geo_fips`
name would stay unbound). -/
def delGeoFips (county : String) : Option String :=
  if county = "New Castle" then some "10003"
  else if county = "Kent" then some "10001"
  else if county = "Sussex" then some "10005"
  else none

/-- `transform_bea_data` (lines 97-107): record-level view of
`pd.DataFrame(bea_data)` followed by the `County` / `DataType` column
assignments. -/
def transform_bea_data (bea_data : Option (List PyDict))
    (county_name data_type : String) : Option (List PyDict) :=
  match bea_data with
  | none => none
  | some recs =>
    some (recs.map (fun r =>
      assocSet (assocSet r "County" (.str county_name))
        "DataType" (.str data_type)))

/-- Python truthiness of an optional list (`if bea_data_gdp:`):
`None` and `[]` are falsy. -/
def listTruthy : Option (List α) → Bool
  | some (_ :: _) => true
  | _ => false

/-- The per-metric block of `process_state`: append the transformed frame
when the fetched value is truthy, else skip. -/
def appendIfData (acc : List (List PyDict)) (fetched : Option (List PyDict))
    (county_name data_type : String) : List (List PyDict) :=
  if listTruthy fetched then
    match transform_bea_data fetched county_name data_type with
    | some f => acc ++ [f]
    | none => acc
  else acc

/-- The network oracle of the Business Index run: one attempt trace per
(GeoFips, LineCode) request. -/
abbrev BeaEnv := String → Nat → Nat → BeaOutcome

/-- The three sequential fetch/transform blocks for one county
(lines 139-169). -/
def countyFrames (env : BeaEnv) (county_name geo_fips : String) :
    List (List PyDict) :=
  let r1 := get_bea_data (env geo_fips BEA_LINE_CODE_GDP) 3
  let acc1 := appendIfData [] r1.result county_name "GDP"
  let r2 := get_bea_data (env geo_fips BEA_LINE_CODE_GDP_CAPITA) 3
  let acc2 := appendIfData acc1 r2.result county_name "GDP_CAPITA"
  let r3 := get_bea_data (env geo_fips BEA_LINE_CODE_ANNUAL_GDP_GROWTH) 3
  appendIfData acc2 r3.result county_name "ANNUAL_GDP_GROWTH"

/-- Network attempts issued for one county (three fetch calls). -/
def countyAttempts (env : BeaEnv) (geo_fips : String) : Nat :=
  (get_bea_data (env geo_fips BEA_LINE_CODE_GDP) 3).attempts +
  (get_bea_data (env geo_fips BEA_LINE_CODE_GDP_CAPITA) 3).attempts +
  (get_bea_data (env geo_fips BEA_LINE_CODE_ANNUAL_GDP_GROWTH) 3).attempts

/-- Sleeps performed for one county (three fetch calls). -/
def countySleeps (env : BeaEnv) (geo_fips : String) : Nat :=
  (get_bea_data (env geo_fips BEA_LINE_CODE_GDP) 3).sleeps +
  (get_bea_data (env geo_fips BEA_LINE_CODE_GDP_CAPITA) 3).sleeps +
  (get_bea_data (env geo_fips BEA_LINE_CODE_ANNUAL_GDP_GROWTH) 3).sleeps

/-- Result of the `for index, row in county_population_df.iterrows()`
loop. -/
inductive LoopOut where
  /-- the `else: ... return` branch for a falsy `api_key`. -/
  | noKey (attempts sleeps : Nat)
  /-- geo-fips chain bound nothing: the Python name `geo_fips` is unbound
  and its first use raises `NameError` (unreachable for the hardcoded
  county list). -/
  | nameErr
  /-- loop finished; collected `all_county_data` plus effect counters. -/
  | done (frames : List (List PyDict)) (attempts sleeps : Nat)
deriving DecidableEq, Repr

/-- The county loop of `process_state` (lines 122-174). -/
def countyLoop (state : String) (api_key : Option String) (env : BeaEnv) :
    List String → LoopOut
  | [] => .done [] 0 0
  | county_name :: rest =>
    if state = "Delaware" then
      match delGeoFips county_name with
      | none => .nameErr
      | some geo_fips =>
        if keyTruthy api_key then
          match countyLoop state api_key env rest with
          | .done frames a s =>
            .done (countyFrames env county_name geo_fips ++ frames)
              (countyAttempts env geo_fips + a) (countySleeps env geo_fips + s)
          | .noKey a s =>
            .noKey (countyAttempts env geo_fips + a) (countySleeps env geo_fips + s)
          | .nameErr => .nameErr
        else .noKey 0 0
    else countyLoop state api_key env rest        -- unknown county: continue

/-- Result of one `process_state` run of the Business Index pipeline. -/
structure Run where
  status : RunStatus
  table : List PyDict
  artifact : Option String
  attempts : Nat
  sleeps : Nat
deriving DecidableEq, Repr

/-- `process_state` (`Business Index/main.py` lines 109-187). -/
def process_state (state output_folder : String) (api_key : Option String)
    (env : BeaEnv) : Run :=
  if state = "Delaware" then
    match get_county_population_data state with
    | none => ⟨.missingCounties, [], none, 0, 0⟩
    | some counties =>
      match countyLoop state api_key env counties with
      | .noKey a s => ⟨.noKey, [], none, a, s⟩
      | .nameErr => ⟨.nameErr, [], none, 0, 0⟩
      | .done frames a s =>
        let final_df : List PyDict :=
          if frames ≠ [] then frames.flatten else []
        if final_df ≠ [] then
          ⟨.saved, final_df,
            some (output_folder ++ "/" ++ state ++ "_bea_data_2021.xlsx"),
            a, s⟩
        else ⟨.noData, final_df, none, a, s⟩
  else ⟨.notImplemented, [], none, 0, 0⟩

end BI

/-! ## Education Index pipeline -/

def NATIONAL_AVERAGE_SPENDING : ℚ := 15633

def HIGH_SCHOOL_GRADUATION_RATE : ℚ := 87

def ASSOCIATES_DEGREE_ATTAINMENT : ℚ := 99 / 10

def BACHELORS_DEGREE_ATTAINMENT : ℚ := 249 / 10

def ADVANCED_DEGREE_ATTAINMENT : ℚ := 5

namespace Edu

/-- `get_county_population_data` (`EducationIndex/main.py` lines 17-29):
textually identical to the Business Index copy. -/
def get_county_population_data (state : String) : Option (List String) :=
  if state = "Delaware" then some DELAWARE_COUNTIES else none

/-- `get_education_data` (lines 115-127): the one-row frame of hardcoded
education indices. -/
def get_education_data (county_name : String) : Df :=
  [("County", [.str county_name]),
   ("High School Completion (%)", [.num HIGH_SCHOOL_GRADUATION_RATE]),
   ("Associates Degree / Apprenticeship (%)", [.num ASSOCIATES_DEGREE_ATTAINMENT]),
   ("Bachelors Degree (%)", [.num BACHELORS_DEGREE_ATTAINMENT]),
   ("Advanced Degree (%)", [.num ADVANCED_DEGREE_ATTAINMENT])]

/-- `education_data[col][0]`: first entry of a column. -/
def colHead (df : Df) (c : String) : CellVal :=
  (getColD df c).headD .nan

/-- Python truthiness of the optional fetched dict (`if census_data:`):
`None` and the empty dict are falsy. -/
def dictTruthy : Option (List (String × String)) → Bool
  | some (_ :: _) => true
  | _ => false

/-- The frame built for one county inside the loop (lines 151-165):
`pd.DataFrame([census_data])` plus the five column assignments copied
from `get_education_data`. -/
def countyFrame (census_data : List (String × String)) (county_name : String) :
    Df :=
  let education_data := get_education_data county_name
  let new_df := dfOfRecord census_data
  let new_df := setColConst new_df "County" (.str county_name)
  let new_df := setColConst new_df "High School Completion (%)"
    (colHead education_data "High School Completion (%)")
  let new_df := setColConst new_df "Associates Degree / Apprenticeship (%)"
    (colHead education_data "Associates Degree / Apprenticeship (%)")
  let new_df := setColConst new_df "Bachelors Degree (%)"
    (colHead education_data "Bachelors Degree (%)")
  setColConst new_df "Advanced Degree (%)"
    (colHead education_data "Advanced Degree (%)")

/-- The network oracle of the Education run: one attempt trace per
county request. -/
abbrev CensusEnv := String → Nat → CensusOutcome

/-- Result of the county loop (mirrors `BI.LoopOut`; no geo-fips chain
here, so no `NameError` case). -/
inductive LoopOut where
  | noKey (attempts sleeps : Nat)
  | done (frames : List Df) (attempts sleeps : Nat)
deriving DecidableEq, Repr

/-- The county loop of `process_state` (`EducationIndex/main.py` lines
143-170). -/
def countyLoop (api_key : Option String) (env : CensusEnv) :
    List String → LoopOut
  | [] => .done [] 0 0
  | county_name :: rest =>
    if keyTruthy api_key then
      let r := get_census_data_by_county county_name (env county_name) 3
      let here : List Df :=
        if dictTruthy r.result then
          match r.result with
          | some census_data => [countyFrame census_data county_name]
          | none => []
        else []
      match countyLoop api_key env rest with
      | .done frames a s => .done (here ++ frames) (r.attempts + a) (r.sleeps + s)
      | .noKey a s => .noKey (r.attempts + a) (r.sleeps + s)
    else .noKey 0 0

/-- Result of one `process_state` run of the Education pipeline. -/
structure Run where
  status : RunStatus
  table : Option Df
  artifact : Option String
  attempts : Nat
  sleeps : Nat
deriving DecidableEq, Repr

/-- `process_state` (`EducationIndex/main.py` lines 129-181).  Note
line 173 runs `pd.concat(all_county_data)` unconditionally: with an
empty list pandas raises `ValueError` ("No objects to concatenate"),
modelled by the `concatRaised` status. -/
def process_state (state output_folder : String) (api_key : Option String)
    (env : CensusEnv) : Run :=
  if state = "Delaware" then
    match get_county_population_data state with
    | none => ⟨.missingCounties, none, none, 0, 0⟩
    | some counties =>
      match countyLoop api_key env counties with
      | .noKey a s => ⟨.noKey, none, none, a, s⟩
      | .done frames a s =>
        match frames with
        | [] => ⟨.concatRaised, none, none, a, s⟩
        | _ :: _ =>
          match transform_census_data (some (dfConcat frames)) with
          | some census_df =>
            if dfEmpty census_df then
              ⟨.noData, some census_df, none, a, s⟩
            else
              ⟨.saved, some census_df,
                some (output_folder ++ "/" ++ state ++ "_census_data_2022.xlsx"),
                a, s⟩
          | none => ⟨.noData, none, none, a, s⟩
  else ⟨.notImplemented, none, none, 0, 0⟩

end Edu

/-! ## Derived definitions used by the proofs -/

/-- The two retried ("transient") outcomes of a BEA attempt. -/
def isTransient : BeaOutcome → Bool
  | .jsonErr => true
  | .transportErr => true
  | _ => false

/-- The two retried outcomes of a census attempt. -/
def isTransientC : CensusOutcome → Bool
  | .jsonErr => true
  | .transportErr => true
  | _ => false

/-- The (region, metric) tag of one row of the final Business Index
table. -/
def rowTag (r : PyDict) : Option CellVal × Option CellVal :=
  (List.lookup "County" r, List.lookup "DataType" r)

/-- The number of rows one fetched value contributes to the final table. -/
def collectedCount (o : Option (List PyDict)) : Nat :=
  if BI.listTruthy o then (o.getD []).length else 0

/-- One transient failure, then a successful data body on every later
attempt. -/
def c2Trace : Nat → BeaOutcome := fun n =>
  if n = 0 then .transportErr else .ok (.dataArr [[("DataValue", .str "7")]])

/-- One transient failure, then a well-formed census body on every later
attempt. -/
def c2CTrace : Nat → CensusOutcome := fun n =>
  if n = 0 then .transportErr
  else .ok [["NAME", "B01001_001E"], ["Kent County", "181851"]]

/-- A network oracle on which every attempt fails with a transport
error. -/
def allFailB : BI.BeaEnv := fun _ _ _ => .transportErr

/-- A census oracle on which every attempt fails with a transport
error. -/
def allFailC : Edu.CensusEnv := fun _ _ => .transportErr

/-- The metric tags in fetch order, with their BEA line codes. -/
def biMetricTags : List (String × Nat) :=
  [("GDP", BEA_LINE_CODE_GDP), ("GDP_CAPITA", BEA_LINE_CODE_GDP_CAPITA),
   ("ANNUAL_GDP_GROWTH", BEA_LINE_CODE_ANNUAL_GDP_GROWTH)]

/-- The counties in iteration order with their GeoFips codes. -/
def biRegionCodes : List (String × String) :=
  [("New Castle", "10003"), ("Kent", "10001"), ("Sussex", "10005")]

/-- Rows contributed to the table by the (geo, line code) fetch. -/
def biCollected (env : BI.BeaEnv) (geo : String) (lc : Nat) : Nat :=
  collectedCount (get_bea_data (env geo lc) 3).result

/-- The row tags the spec predicts: region iteration order crossed with
metric iteration order, each combination contributing as many rows as
its fetch collected. -/
def biExpectedTags (env : BI.BeaEnv) :
    List (Option CellVal × Option CellVal) :=
  biRegionCodes.flatMap (fun cg =>
    biMetricTags.flatMap (fun m =>
      List.replicate (biCollected env cg.2 m.2)
        (some (.str cg.1), some (.str m.1))))

/-- The (count, tag) pairs behind `biExpectedTags`, flattened over the
region × metric product. -/
def biPairs (env : BI.BeaEnv) :
    List (Nat × (Option CellVal × Option CellVal)) :=
  biRegionCodes.flatMap (fun cg =>
    biMetricTags.map (fun m =>
      (biCollected env cg.2 m.2, (some (.str cg.1), some (.str m.1)))))

/-- A network oracle returning a two-record payload for the (New Castle,
GDP) request and failing every other request. -/
def dupEnv : BI.BeaEnv := fun geo lc _ =>
  if geo = "10003" ∧ lc = 10 then
    .ok (.dataArr [[("TimePeriod", .str "2020")], [("TimePeriod", .str "2021")]])
  else .transportErr

/-- A concrete one-row census table holding the `B01001_001E` column. -/
def c10df : Df :=
  [("NAME", [CellVal.str "Kent County, Delaware"]),
   ("B01001_001E", [CellVal.str "181851"]),
   ("B01002_001E", [CellVal.str "38.5"])]

/-- The contribution of one county to `all_county_data` in the Education
loop (the zeta-expanded loop body for that county). -/
def eduHere (env : Edu.CensusEnv) (county_name : String) : List Df :=
  if Edu.dictTruthy (get_census_data_by_county county_name (env county_name) 3).result then
    match (get_census_data_by_county county_name (env county_name) 3).result with
    | some census_data => [Edu.countyFrame census_data county_name]
    | none => []
  else []

/-- The County column the spec predicts for the Education table: the
counties in iteration order, one entry per successfully fetched county. -/
def eduExpectedCounties (env : Edu.CensusEnv) : List CellVal :=
  DELAWARE_COUNTIES.flatMap (fun c =>
    if Edu.dictTruthy (get_census_data_by_county c (env c) 3).result
    then [CellVal.str c] else [])

/-- The County column of an optional table (empty when the run produced
no table). -/
def countyColOf : Option Df → List CellVal
  | some df => getColD df "County"
  | none => []

/-- A census oracle on which every county's first attempt succeeds with
a one-row body. -/
def c8CEnv : Edu.CensusEnv := fun c _ =>
  .ok [["NAME", "B01001_001E"], [c, "1000"]]

/-! ## Lemmas and claims -/

theorem lookup_cons_pair {β : Type} (k a : String) (b : β)
    (t : List (String × β)) :
    List.lookup k ((a, b) :: t) = if k = a then some b else List.lookup k t := by
  by_cases h : k = a
  · simp [List.lookup, h]
  · have hb : (k == a) = false := by simpa using h
    simp [List.lookup, hb, h]

theorem lookup_map_overwrite {β : Type} (l : List (String × β)) (k : String)
    (v : β) (h : (List.lookup k l).isSome = true) :
    List.lookup k (l.map (fun p => if p.1 = k then (k, v) else p)) = some v := by
  induction l with
  | nil => simp at h
  | cons p t ih =>
    obtain ⟨a, b⟩ := p
    by_cases hp : a = k
    · simp [hp, lookup_cons_pair]
    · have hka : ¬k = a := fun hkk => hp hkk.symm
      rw [lookup_cons_pair, if_neg hka] at h
      simp only [List.map_cons, if_neg hp, lookup_cons_pair, if_neg hka]
      exact ih h

theorem lookup_map_overwrite_ne {β : Type} (l : List (String × β))
    (k k' : String) (v : β) (hk : k' ≠ k) :
    List.lookup k' (l.map (fun p => if p.1 = k then (k, v) else p))
      = List.lookup k' l := by
  induction l with
  | nil => simp
  | cons p t ih =>
    obtain ⟨a, b⟩ := p
    by_cases hp : a = k
    · subst hp
      simp [lookup_cons_pair, if_neg hk, ih]
    · simp [List.map_cons, if_neg hp, lookup_cons_pair, ih]

theorem lookup_append_last {β : Type} (l : List (String × β)) (k : String)
    (v : β) (h : (List.lookup k l).isSome = false) :
    List.lookup k (l ++ [(k, v)]) = some v := by
  induction l with
  | nil => simp [lookup_cons_pair]
  | cons p t ih =>
    obtain ⟨a, b⟩ := p
    by_cases hp : k = a
    · simp [lookup_cons_pair, hp] at h
    · rw [lookup_cons_pair, if_neg hp] at h
      simp only [List.cons_append, lookup_cons_pair, if_neg hp]
      exact ih h

theorem lookup_append_ne {β : Type} (l : List (String × β)) (k k' : String)
    (v : β) (hk : k' ≠ k) :
    List.lookup k' (l ++ [(k, v)]) = List.lookup k' l := by
  induction l with
  | nil => simp [lookup_cons_pair, if_neg hk]
  | cons p t ih =>
    obtain ⟨a, b⟩ := p
    simp only [List.cons_append, lookup_cons_pair, ih]

theorem lookup_assocSet_self {β : Type} (l : List (String × β)) (k : String)
    (v : β) : List.lookup k (assocSet l k v) = some v := by
  unfold assocSet
  split
  case isTrue h => exact lookup_map_overwrite l k v h
  case isFalse h =>
    refine lookup_append_last l k v ?_
    simp only [Bool.not_eq_true] at h
    exact h

theorem lookup_assocSet_ne {β : Type} (l : List (String × β)) (k k' : String)
    (v : β) (hk : k' ≠ k) :
    List.lookup k' (assocSet l k v) = List.lookup k' l := by
  unfold assocSet
  split
  · exact lookup_map_overwrite_ne l k k' v hk
  · exact lookup_append_ne l k k' v hk

theorem beaAttempts_reach (trace : Nat → BeaOutcome) (maxR : Nat)
    (n : Nat) :
    ∀ (attempt fuel : Nat),
    (∀ i, i < n → isTransient (trace (attempt + i)) = true) →
    attempt + n ≤ maxR - 1 → n < fuel →
    beaAttempts trace maxR attempt fuel =
      ⟨(beaAttempts trace maxR (attempt + n) (fuel - n)).result,
       (beaAttempts trace maxR (attempt + n) (fuel - n)).attempts + n,
       (beaAttempts trace maxR (attempt + n) (fuel - n)).sleeps + n⟩ := by
  induction n with
  | zero => intro attempt fuel _ _ _; simp
  | succ n ih =>
    intro attempt fuel h hle hf
    obtain ⟨f, rfl⟩ : ∃ f, fuel = f + 1 := ⟨fuel - 1, by omega⟩
    have h0 : isTransient (trace attempt) = true := by
      have := h 0 (by omega)
      simpa using this
    have hlt : attempt < maxR - 1 := by omega
    have hshift : ∀ i, i < n → isTransient (trace (attempt + 1 + i)) = true := by
      intro i hi
      have := h (i + 1) (by omega)
      have e : attempt + (i + 1) = attempt + 1 + i := by omega
      rwa [e] at this
    have ihr := ih (attempt + 1) f hshift (by omega) (by omega)
    have e1 : attempt + 1 + n = attempt + (n + 1) := by omega
    have e2 : f - n = f + 1 - (n + 1) := by omega
    rw [e1, e2] at ihr
    cases ht : trace attempt with
    | jsonErr =>
      simp only [beaAttempts, ht, if_pos hlt, ihr]
      simp only [FetchRun.mk.injEq, true_and]
      omega
    | transportErr =>
      simp only [beaAttempts, ht, if_pos hlt, ihr]
      simp only [FetchRun.mk.injEq, true_and]
      omega
    | otherErr => rw [ht] at h0; simp [isTransient] at h0
    | ok b => rw [ht] at h0; simp [isTransient] at h0

theorem beaAttempts_all_transient (trace : Nat → BeaOutcome) (maxR : Nat)
    (h : ∀ i, i < maxR → isTransient (trace i) = true) :
    ∀ (fuel attempt : Nat), attempt + fuel = maxR →
    beaAttempts trace maxR attempt fuel = ⟨none, fuel, fuel - 1⟩ := by
  intro fuel
  induction fuel with
  | zero => intro attempt _; simp [beaAttempts]
  | succ f ih =>
    intro attempt heq
    have h0 : isTransient (trace attempt) = true := h attempt (by omega)
    by_cases hlt : attempt < maxR - 1
    · have hf : 1 ≤ f := by omega
      have ihr := ih (attempt + 1) (by omega)
      cases ht : trace attempt with
      | jsonErr =>
        simp only [beaAttempts, ht, if_pos hlt, ihr]
        simp only [FetchRun.mk.injEq, true_and]
        omega
      | transportErr =>
        simp only [beaAttempts, ht, if_pos hlt, ihr]
        simp only [FetchRun.mk.injEq, true_and]
        omega
      | otherErr => rw [ht] at h0; simp [isTransient] at h0
      | ok b => rw [ht] at h0; simp [isTransient] at h0
    · have hf : f = 0 := by omega
      subst hf
      cases ht : trace attempt with
      | jsonErr => simp [beaAttempts, ht, if_neg hlt]
      | transportErr => simp [beaAttempts, ht, if_neg hlt]
      | otherErr => rw [ht] at h0; simp [isTransient] at h0
      | ok b => rw [ht] at h0; simp [isTransient] at h0

theorem beaAttempts_le (trace : Nat → BeaOutcome) (maxR : Nat) :
    ∀ (fuel attempt : Nat),
    (beaAttempts trace maxR attempt fuel).attempts ≤ fuel := by
  intro fuel
  induction fuel with
  | zero => intro attempt; simp [beaAttempts]
  | succ f ih =>
    intro attempt
    cases ht : trace attempt with
    | jsonErr =>
      by_cases hlt : attempt < maxR - 1
      · simp only [beaAttempts, ht, if_pos hlt]
        have := ih (attempt + 1)
        omega
      · simp [beaAttempts, ht, if_neg hlt]
    | transportErr =>
      by_cases hlt : attempt < maxR - 1
      · simp only [beaAttempts, ht, if_pos hlt]
        have := ih (attempt + 1)
        omega
      · simp [beaAttempts, ht, if_neg hlt]
    | otherErr => simp [beaAttempts, ht]
    | ok b => cases b <;> simp [beaAttempts, ht]

/-- After `n` transient failures, a successful data body at attempt `n`
is returned, with one extra attempt and no extra sleep. -/
theorem get_bea_data_after_transient (trace : Nat → BeaOutcome)
    (maxR n : Nat) (recs : List PyDict)
    (hmax : 1 ≤ maxR)
    (h : ∀ i, i < n → isTransient (trace i) = true)
    (hn : n ≤ maxR - 1)
    (hok : trace n = .ok (.dataArr recs)) :
    get_bea_data trace maxR = ⟨some recs, n + 1, n⟩ := by
  have hreach := beaAttempts_reach trace maxR n 0 maxR
    (by simpa using h) (by omega) (by omega)
  obtain ⟨m, hm⟩ : ∃ m, maxR - n = m + 1 := ⟨maxR - n - 1, by omega⟩
  unfold get_bea_data
  rw [hreach]
  simp only [Nat.zero_add, hm, beaAttempts, hok]
  exact congrArg (fun a => FetchRun.mk (some recs) a n) (by omega)

/-- After `n` transient failures, a non-transient exception at attempt
`n` returns `None` with one extra attempt and no extra sleep. -/
theorem get_bea_data_other_error (trace : Nat → BeaOutcome)
    (maxR n : Nat)
    (hmax : 1 ≤ maxR)
    (h : ∀ i, i < n → isTransient (trace i) = true)
    (hn : n ≤ maxR - 1)
    (hother : trace n = .otherErr) :
    get_bea_data trace maxR = ⟨none, n + 1, n⟩ := by
  have hreach := beaAttempts_reach trace maxR n 0 maxR
    (by simpa using h) (by omega) (by omega)
  obtain ⟨m, hm⟩ : ∃ m, maxR - n = m + 1 := ⟨maxR - n - 1, by omega⟩
  unfold get_bea_data
  rw [hreach]
  simp only [Nat.zero_add, hm, beaAttempts, hother]
  exact congrArg (fun a => FetchRun.mk none a n) (by omega)

theorem censusAttempts_reach (trace : Nat → CensusOutcome) (maxR : Nat)
    (n : Nat) :
    ∀ (attempt fuel : Nat),
    (∀ i, i < n → isTransientC (trace (attempt + i)) = true) →
    attempt + n ≤ maxR - 1 → n < fuel →
    censusAttempts trace maxR attempt fuel =
      ⟨(censusAttempts trace maxR (attempt + n) (fuel - n)).result,
       (censusAttempts trace maxR (attempt + n) (fuel - n)).attempts + n,
       (censusAttempts trace maxR (attempt + n) (fuel - n)).sleeps + n⟩ := by
  induction n with
  | zero => intro attempt fuel _ _ _; simp
  | succ n ih =>
    intro attempt fuel h hle hf
    obtain ⟨f, rfl⟩ : ∃ f, fuel = f + 1 := ⟨fuel - 1, by omega⟩
    have h0 : isTransientC (trace attempt) = true := by
      have := h 0 (by omega)
      simpa using this
    have hlt : attempt < maxR - 1 := by omega
    have hshift : ∀ i, i < n → isTransientC (trace (attempt + 1 + i)) = true := by
      intro i hi
      have := h (i + 1) (by omega)
      have e : attempt + (i + 1) = attempt + 1 + i := by omega
      rwa [e] at this
    have ihr := ih (attempt + 1) f hshift (by omega) (by omega)
    have e1 : attempt + 1 + n = attempt + (n + 1) := by omega
    have e2 : f - n = f + 1 - (n + 1) := by omega
    rw [e1, e2] at ihr
    cases ht : trace attempt with
    | jsonErr =>
      simp only [censusAttempts, ht, if_pos hlt, ihr]
      simp only [FetchRun.mk.injEq, true_and]
      omega
    | transportErr =>
      simp only [censusAttempts, ht, if_pos hlt, ihr]
      simp only [FetchRun.mk.injEq, true_and]
      omega
    | otherErr => rw [ht] at h0; simp [isTransientC] at h0
    | ok b => rw [ht] at h0; simp [isTransientC] at h0

/-- After `n` transient failures, a well-formed body with a header row
and at least one value row is returned as the zipped dict, with one
extra attempt and no extra sleep. -/
theorem get_census_after_transient (county : String)
    (trace : Nat → CensusOutcome) (maxR n : Nat)
    (columns values : List String) (more : List (List String))
    (hc : (censusFips county).isSome = true)
    (hmax : 1 ≤ maxR)
    (h : ∀ i, i < n → isTransientC (trace i) = true)
    (hn : n ≤ maxR - 1)
    (hok : trace n = .ok (columns :: values :: more)) :
    get_census_data_by_county county trace maxR
      = ⟨some (pyDictPairs (columns.zip values)), n + 1, n⟩ := by
  have hreach := censusAttempts_reach trace maxR n 0 maxR
    (by simpa using h) (by omega) (by omega)
  obtain ⟨f, hfips⟩ : ∃ f, censusFips county = some f :=
    Option.isSome_iff_exists.mp hc
  obtain ⟨m, hm⟩ : ∃ m, maxR - n = m + 1 := ⟨maxR - n - 1, by omega⟩
  unfold get_census_data_by_county
  rw [hfips, hreach]
  simp only [Nat.zero_add, hm, censusAttempts, hok]
  exact congrArg (fun a => FetchRun.mk (some (pyDictPairs (columns.zip values))) a n)
    (by omega)

/-- After `n` transient failures, a non-transient exception at attempt
`n` returns `None` with one extra attempt and no extra sleep. -/
theorem get_census_other_error (county : String)
    (trace : Nat → CensusOutcome) (maxR n : Nat)
    (hc : (censusFips county).isSome = true)
    (hmax : 1 ≤ maxR)
    (h : ∀ i, i < n → isTransientC (trace i) = true)
    (hn : n ≤ maxR - 1)
    (hother : trace n = .otherErr) :
    get_census_data_by_county county trace maxR = ⟨none, n + 1, n⟩ := by
  have hreach := censusAttempts_reach trace maxR n 0 maxR
    (by simpa using h) (by omega) (by omega)
  obtain ⟨f, hfips⟩ : ∃ f, censusFips county = some f :=
    Option.isSome_iff_exists.mp hc
  obtain ⟨m, hm⟩ : ∃ m, maxR - n = m + 1 := ⟨maxR - n - 1, by omega⟩
  unfold get_census_data_by_county
  rw [hfips, hreach]
  simp only [Nat.zero_add, hm, censusAttempts, hother]
  exact congrArg (fun a => FetchRun.mk none a n) (by omega)

theorem transformed_row_tag (r : PyDict) (c t : String) :
    rowTag (assocSet (assocSet r "County" (.str c)) "DataType" (.str t))
      = (some (.str c), some (.str t)) := by
  unfold rowTag
  rw [lookup_assocSet_ne _ "DataType" "County" _ (by decide),
    lookup_assocSet_self, lookup_assocSet_self]

theorem transform_bea_data_tags (recs : List PyDict) (c t : String) :
    ((BI.transform_bea_data (some recs) c t).getD []).map rowTag
      = List.replicate recs.length (some (.str c), some (.str t)) := by
  simp only [BI.transform_bea_data, Option.getD_some, List.map_map]
  have : (rowTag ∘ fun r =>
      assocSet (assocSet r "County" (.str c)) "DataType" (.str t))
      = fun _ => ((some (.str c), some (.str t)) :
        Option CellVal × Option CellVal) := by
    funext r
    exact transformed_row_tag r c t
  rw [this]
  exact List.map_const' recs _

theorem appendIfData_acc (acc : List (List PyDict))
    (o : Option (List PyDict)) (c t : String) :
    BI.appendIfData acc o c t = acc ++ BI.appendIfData [] o c t := by
  unfold BI.appendIfData
  match o with
  | none => simp [BI.listTruthy]
  | some [] => simp [BI.listTruthy]
  | some (r :: rs) => simp [BI.listTruthy, BI.transform_bea_data]

theorem appendIfData_tags (o : Option (List PyDict)) (c t : String) :
    (BI.appendIfData [] o c t).flatten.map rowTag
      = List.replicate (collectedCount o) (some (.str c), some (.str t)) := by
  match o with
  | none => simp [BI.appendIfData, BI.listTruthy, collectedCount]
  | some [] => simp [BI.appendIfData, BI.listTruthy, collectedCount]
  | some (r :: rs) =>
    have htags := transform_bea_data_tags (r :: rs) c t
    simp only [BI.appendIfData, BI.listTruthy, BI.transform_bea_data,
      collectedCount, Option.getD_some] at htags ⊢
    simpa using htags

theorem countyFrames_tags (env : BI.BeaEnv) (c geo : String) :
    (BI.countyFrames env c geo).flatten.map rowTag
      = List.replicate
          (collectedCount (get_bea_data (env geo BEA_LINE_CODE_GDP) 3).result)
          (some (.str c), some (.str "GDP"))
        ++ List.replicate
          (collectedCount (get_bea_data (env geo BEA_LINE_CODE_GDP_CAPITA) 3).result)
          (some (.str c), some (.str "GDP_CAPITA"))
        ++ List.replicate
          (collectedCount (get_bea_data (env geo BEA_LINE_CODE_ANNUAL_GDP_GROWTH) 3).result)
          (some (.str c), some (.str "ANNUAL_GDP_GROWTH")) := by
  unfold BI.countyFrames
  rw [appendIfData_acc, appendIfData_acc
    (BI.appendIfData [] (get_bea_data (env geo BEA_LINE_CODE_GDP) 3).result c "GDP")]
  simp only [List.flatten_append, List.map_append, appendIfData_tags,
    List.append_assoc]

theorem getColD_setCol_self (df : Df) (c : String) (vs : List CellVal) :
    getColD (setCol df c vs) c = vs := by
  simp [getColD, setCol, lookup_assocSet_self]

theorem getColD_setCol_ne (df : Df) (c c' : String) (vs : List CellVal)
    (h : c' ≠ c) : getColD (setCol df c vs) c' = getColD df c' := by
  simp [getColD, setCol, lookup_assocSet_ne _ _ _ _ h]

theorem hasCol_setCol_self (df : Df) (c : String) (vs : List CellVal) :
    hasCol (setCol df c vs) c = true := by
  simp [hasCol, setCol, lookup_assocSet_self]

theorem hasCol_setCol_ne (df : Df) (c c' : String) (vs : List CellVal)
    (h : c' ≠ c) : hasCol (setCol df c vs) c' = hasCol df c' := by
  simp [hasCol, setCol, lookup_assocSet_ne _ _ _ _ h]

theorem nRows_renameCol (df : Df) (old nw : String) :
    nRows (renameCol df old nw) = nRows df := by
  cases df with
  | nil => rfl
  | cons p t =>
    by_cases h : p.1 = old <;> simp [renameCol, nRows, h]

theorem nRows_setCol_keep (df : Df) (c : String) (vs : List CellVal)
    (hc : hasCol df c = true) (hlen : vs.length = (getColD df c).length) :
    nRows (setCol df c vs) = nRows df := by
  unfold setCol assocSet
  rw [if_pos (show (List.lookup c df).isSome = true from hc)]
  cases df with
  | nil => simp [hasCol, List.lookup] at hc
  | cons p t =>
    obtain ⟨a, col⟩ := p
    by_cases h : a = c
    · subst h
      have : getColD ((a, col) :: t) a = col := by
        simp [getColD, lookup_cons_pair]
      rw [this] at hlen
      simp [nRows, hlen]
    · simp [nRows, h]

theorem lookup_mem {β : Type} (l : List (String × β)) (k : String) (v : β)
    (h : List.lookup k l = some v) : (k, v) ∈ l := by
  induction l with
  | nil => simp [List.lookup] at h
  | cons p t ih =>
    obtain ⟨a, b⟩ := p
    rw [lookup_cons_pair] at h
    by_cases hk : k = a
    · rw [if_pos hk] at h
      obtain rfl := Option.some.inj h
      simp [hk]
    · rw [if_neg hk] at h
      exact List.mem_cons_of_mem _ (ih h)

theorem rect_mem_length (df : Df) (hr : isRect df = true) (k : String)
    (col : List CellVal) (hmem : (k, col) ∈ df) : col.length = nRows df := by
  rw [isRect, List.all_eq_true] at hr
  have := hr _ hmem
  simpa using this

theorem rect_getColD_length (df : Df) (hr : isRect df = true) (c : String)
    (hc : hasCol df c = true) : (getColD df c).length = nRows df := by
  rw [hasCol] at hc
  obtain ⟨col, hcol⟩ := Option.isSome_iff_exists.mp hc
  rw [getColD, hcol, Option.getD_some]
  exact rect_mem_length df hr c col (lookup_mem df c col hcol)

theorem lookup_renameCol_values (df : Df) (old nw c : String)
    (col : List CellVal) (h : List.lookup c (renameCol df old nw) = some col) :
    ∃ k, (k, col) ∈ df := by
  induction df with
  | nil => simp [renameCol, List.lookup] at h
  | cons p t ih =>
    obtain ⟨a, b⟩ := p
    by_cases ha : a = old
    · rw [renameCol, List.map_cons, if_pos ha, lookup_cons_pair] at h
      by_cases hc : c = nw
      · rw [if_pos hc] at h
        obtain rfl := Option.some.inj h
        exact ⟨a, by simp⟩
      · rw [if_neg hc] at h
        obtain ⟨k, hk⟩ := ih h
        exact ⟨k, List.mem_cons_of_mem _ hk⟩
    · rw [renameCol, List.map_cons, if_neg ha, lookup_cons_pair] at h
      by_cases hc : c = a
      · rw [if_pos hc] at h
        obtain rfl := Option.some.inj h
        exact ⟨a, by simp⟩
      · rw [if_neg hc] at h
        obtain ⟨k, hk⟩ := ih h
        exact ⟨k, List.mem_cons_of_mem _ hk⟩

theorem hasCol_renameCol_new (df : Df) (old nw : String)
    (h : hasCol df old = true) : hasCol (renameCol df old nw) nw = true := by
  induction df with
  | nil => simp [hasCol, List.lookup] at h
  | cons p t ih =>
    obtain ⟨a, b⟩ := p
    by_cases ha : a = old
    · simp [hasCol, renameCol, List.map_cons, if_pos ha, lookup_cons_pair]
    · rw [hasCol, lookup_cons_pair] at h
      rw [if_neg (fun hoa => ha hoa.symm)] at h
      by_cases hnw : nw = a
      · simp [hasCol, renameCol, List.map_cons, if_neg ha, lookup_cons_pair,
          if_pos hnw]
      · have := ih h
        rw [hasCol] at this
        simp [hasCol, renameCol, List.map_cons, if_neg ha, lookup_cons_pair,
          if_neg hnw, renameCol] at this ⊢
        exact this

theorem zipWith_replicate_self {α β : Type} (f : α → α → β) (l : List α)
    (v : α) :
    List.zipWith f l (List.replicate l.length v) = l.map (fun a => f a v) := by
  induction l with
  | nil => rfl
  | cons x t ih => simp [List.replicate_succ, ih]

/-- C2, as stated, is false: for `N = 1` transient failure followed by a
success (with `max_retries = 3`), the code returns the successful payload
but has slept once, not `N - 1 = 0` times — the sleep happens in the
failing attempt's handler, before the successful attempt. -/
theorem c2_counterexample :
    (get_bea_data c2Trace 3).result = some [[("DataValue", CellVal.str "7")]]
    ∧ (get_bea_data c2Trace 3).sleeps = 1
    ∧ ¬(get_bea_data c2Trace 3).sleeps = 1 - 1 := by decide

/-- C2 (amended): for 1 ≤ N ≤ max_retries − 1, a fetch call
(`get_bea_data` or `get_census_data_by_county`) that encounters N
consecutive transient failures followed by a successful well-formed
response returns the successful payload and has slept exactly N times. -/
theorem c2_amended :
    (∀ (trace : Nat → BeaOutcome) (max_retries N : Nat) (recs : List PyDict),
      1 ≤ N → N ≤ max_retries - 1 →
      (∀ i, i < N → isTransient (trace i) = true) →
      trace N = .ok (.dataArr recs) →
      get_bea_data trace max_retries = ⟨some recs, N + 1, N⟩)
    ∧ (∀ (county : String) (trace : Nat → CensusOutcome)
        (max_retries N : Nat) (columns values : List String)
        (more : List (List String)),
        (censusFips county).isSome = true →
        1 ≤ N → N ≤ max_retries - 1 →
        (∀ i, i < N → isTransientC (trace i) = true) →
        trace N = .ok (columns :: values :: more) →
        get_census_data_by_county county trace max_retries
          = ⟨some (pyDictPairs (columns.zip values)), N + 1, N⟩) := by
  constructor
  · intro trace maxR N recs h1 h2 h3 h4
    exact get_bea_data_after_transient trace maxR N recs (by omega) h3 h2 h4
  · intro county trace maxR N columns values more hc h1 h2 h3 h4
    exact get_census_after_transient county trace maxR N columns values more
      hc (by omega) h3 h2 h4

/-- Witness for `c2_amended` at N = 1, max_retries = 3, on both
fetchers. -/
theorem c2_amended_witness :
    get_bea_data c2Trace 3 = ⟨some [[("DataValue", CellVal.str "7")]], 2, 1⟩
    ∧ get_census_data_by_county "Kent" c2CTrace 3
      = ⟨some [("NAME", "Kent County"), ("B01001_001E", "181851")], 2, 1⟩ :=
  ⟨c2_amended.1 c2Trace 3 1 _ (by decide) (by decide) (by decide) (by decide),
   c2_amended.2 "Kent" c2CTrace 3 1 ["NAME", "B01001_001E"]
     ["Kent County", "181851"] [] (by decide) (by decide) (by decide)
     (by decide) (by decide)⟩

/-- C3: a fetch call makes at most `max_retries` attempts, and when every
attempt fails with a transient failure it returns `None` (it does not
raise), having slept exactly `max_retries − 1` times. -/
theorem c3_retry_exhaustion :
    (∀ (trace : Nat → BeaOutcome) (max_retries : Nat),
      (get_bea_data trace max_retries).attempts ≤ max_retries)
    ∧ (∀ (trace : Nat → BeaOutcome) (max_retries : Nat),
        (∀ i, i < max_retries → isTransient (trace i) = true) →
        get_bea_data trace max_retries = ⟨none, max_retries, max_retries - 1⟩) := by
  constructor
  · intro trace maxR
    exact beaAttempts_le trace maxR maxR 0
  · intro trace maxR h
    exact beaAttempts_all_transient trace maxR h maxR 0 (by omega)

/-- Witness for `c3_retry_exhaustion` at the default `max_retries = 3`:
all-transient trace gives `None` after 3 attempts and exactly 2 sleeps. -/
theorem c3_retry_exhaustion_witness :
    (get_bea_data (fun _ => .transportErr) 3).attempts ≤ 3
    ∧ get_bea_data (fun _ => .transportErr) 3 = ⟨none, 3, 2⟩ :=
  ⟨c3_retry_exhaustion.1 (fun _ => .transportErr) 3,
   c3_retry_exhaustion.2 (fun _ => .transportErr) 3 (by decide)⟩

/-- C4: a first-attempt well-formed JSON body that reports a provider
error or lacks the expected wrapper/data keys yields `None` after exactly
one attempt, with no retry and no sleep. -/
theorem c4_provider_error_no_retry (trace : Nat → BeaOutcome)
    (max_retries : Nat) (body : BeaBody)
    (hmax : 1 ≤ max_retries)
    (h0 : trace 0 = .ok body)
    (hbody : body = .errorPayload ∨ body = .noDataNoError
      ∨ body = .missingWrapper) :
    get_bea_data trace max_retries = ⟨none, 1, 0⟩ := by
  obtain ⟨m, rfl⟩ : ∃ m, max_retries = m + 1 := ⟨max_retries - 1, by omega⟩
  rcases hbody with rfl | rfl | rfl <;>
    simp [get_bea_data, beaAttempts, h0]

/-- Witness for `c4_provider_error_no_retry`: a provider error body on
attempt 0 with the default `max_retries = 3`. -/
theorem c4_provider_error_no_retry_witness :
    get_bea_data (fun _ => .ok .errorPayload) 3 = ⟨none, 1, 0⟩ :=
  c4_provider_error_no_retry (fun _ => .ok .errorPayload) 3 .errorPayload
    (by decide) rfl (Or.inl rfl)

/-- C9: an exception that is neither a transport error nor a JSON-decode
error makes the fetch call return `None` from that attempt, with no
further attempt and no further sleep, however many attempts remain. -/
theorem c9_other_exception :
    (∀ (trace : Nat → BeaOutcome) (max_retries k : Nat),
      1 ≤ max_retries → k ≤ max_retries - 1 →
      (∀ i, i < k → isTransient (trace i) = true) →
      trace k = .otherErr →
      get_bea_data trace max_retries = ⟨none, k + 1, k⟩)
    ∧ (∀ (county : String) (trace : Nat → CensusOutcome) (max_retries k : Nat),
        (censusFips county).isSome = true →
        1 ≤ max_retries → k ≤ max_retries - 1 →
        (∀ i, i < k → isTransientC (trace i) = true) →
        trace k = .otherErr →
        get_census_data_by_county county trace max_retries = ⟨none, k + 1, k⟩) := by
  constructor
  · intro trace maxR k h1 h2 h3 h4
    exact get_bea_data_other_error trace maxR k h1 h3 h2 h4
  · intro county trace maxR k hc h1 h2 h3 h4
    exact get_census_other_error county trace maxR k hc h1 h3 h2 h4

/-- Witness for `c9_other_exception`: an unexpected exception on the
first attempt with two attempts remaining gives `None`, 1 attempt,
0 sleeps, on both fetchers. -/
theorem c9_other_exception_witness :
    get_bea_data (fun _ => .otherErr) 3 = ⟨none, 1, 0⟩
    ∧ get_census_data_by_county "Sussex" (fun _ => .otherErr) 3
      = ⟨none, 1, 0⟩ :=
  ⟨c9_other_exception.1 (fun _ => .otherErr) 3 0 (by decide) (by decide)
     (by decide) rfl,
   c9_other_exception.2 "Sussex" (fun _ => .otherErr) 3 0 (by decide)
     (by decide) (by decide) (by decide) rfl⟩

/-- C5: with no credential (`api_key = None`), `process_state` of either
pipeline returns early from the first loop iteration: no network attempt
is made, no sleep happens, no artifact is produced, and the run ends in
the missing-key status, for every possible network behaviour. -/
theorem c5_missing_credential (envB : BI.BeaEnv) (envC : Edu.CensusEnv)
    (folder : String) :
    BI.process_state "Delaware" folder none envB
      = ⟨.noKey, [], none, 0, 0⟩
    ∧ Edu.process_state "Delaware" folder none envC
      = ⟨.noKey, none, none, 0, 0⟩ :=
  ⟨rfl, rfl⟩

/-- C6: the geography resolver of both pipelines returns the fixed
ordered county list `['New Castle', 'Kent', 'Sussex']` for "Delaware"
(with no effect: it is a pure function of the state name), and the
unsupported signal `None` for every other state. -/
theorem c6_geography_resolver :
    (BI.get_county_population_data "Delaware" = some DELAWARE_COUNTIES
      ∧ Edu.get_county_population_data "Delaware" = some DELAWARE_COUNTIES
      ∧ DELAWARE_COUNTIES = ["New Castle", "Kent", "Sussex"]
      ∧ DELAWARE_COUNTIES ≠ [])
    ∧ (∀ state : String, state ≠ "Delaware" →
        BI.get_county_population_data state = none
        ∧ Edu.get_county_population_data state = none) := by
  refine ⟨⟨rfl, rfl, rfl, by decide⟩, ?_⟩
  intro state hs
  constructor <;>
    simp [BI.get_county_population_data, Edu.get_county_population_data, hs]

/-- Witness for `c6_geography_resolver` at the unsupported state
"Ohio". -/
theorem c6_geography_resolver_witness :
    BI.get_county_population_data "Ohio" = none
    ∧ Edu.get_county_population_data "Ohio" = none :=
  c6_geography_resolver.2 "Ohio" (by decide)

/-- C7: `transform_bea_data` is total (the embedding is a function):
absence propagates to `None`, and for any payload it returns a frame of
the same row count in which every row carries exactly the supplied
region name in `County` and the supplied metric tag in `DataType`. -/
theorem c7_transformer :
    (∀ c t : String, BI.transform_bea_data none c t = none)
    ∧ (∀ (recs : List PyDict) (c t : String),
        ∃ out, BI.transform_bea_data (some recs) c t = some out
          ∧ out.length = recs.length
          ∧ ∀ r ∈ out, List.lookup "County" r = some (.str c)
              ∧ List.lookup "DataType" r = some (.str t)) := by
  refine ⟨fun c t => rfl, fun recs c t => ⟨_, rfl, ?_, ?_⟩⟩
  · simp [BI.transform_bea_data]
  · intro r hr
    simp only [BI.transform_bea_data, List.mem_map] at hr
    obtain ⟨r0, _, rfl⟩ := hr
    refine ⟨?_, lookup_assocSet_self _ _ _⟩
    rw [lookup_assocSet_ne _ "DataType" "County" _ (by decide),
      lookup_assocSet_self]

/-- Witness for `c7_transformer` on a one-record payload. -/
theorem c7_transformer_witness :
    ∃ out, BI.transform_bea_data (some [[("DataValue", CellVal.str "5")]])
        "Kent" "GDP" = some out
      ∧ out.length = [[("DataValue", CellVal.str "5")]].length
      ∧ ∀ r ∈ out, List.lookup "County" r = some (.str "Kent")
          ∧ List.lookup "DataType" r = some (.str "GDP") :=
  c7_transformer.2 [[("DataValue", CellVal.str "5")]] "Kent" "GDP"

/-- In the Business Index pipeline, a run with a truthy key that
collects zero rows stores nothing and ends with the "No BEA data to
save" status, for every network oracle. -/
theorem bi_empty_table_noData :
    ∀ (env : BI.BeaEnv) (key : Option String) (folder : String),
      keyTruthy key = true →
      (BI.process_state "Delaware" folder key env).table = [] →
      (BI.process_state "Delaware" folder key env).status = .noData
      ∧ (BI.process_state "Delaware" folder key env).artifact = none := by
  intro env key folder hk htable
  obtain ⟨f, a, s, hloop⟩ : ∃ f a s,
      BI.countyLoop "Delaware" key env DELAWARE_COUNTIES = .done f a s := by
    simp only [DELAWARE_COUNTIES, BI.countyLoop, BI.delGeoFips, hk]
    exact ⟨_, _, _, rfl⟩
  simp only [BI.process_state, BI.get_county_population_data,
    eq_self_iff_true, if_true, hloop] at htable ⊢
  by_cases hF : (if f ≠ [] then f.flatten else []) ≠ []
  · rw [if_pos hF] at htable
    exact absurd htable hF
  · rw [if_neg hF] at htable ⊢
    exact ⟨rfl, rfl⟩

/-- C1: when zero rows are collected (here: every fetch fails), the
Business Index run stores no artifact and reports the "No BEA data to
save" status — but the Education run never reaches its "No census data
to save" branch: `pd.concat(all_county_data)` on the empty collection
raises `ValueError` first (status `concatRaised` after the 9 failed
attempts and 6 sleeps; no artifact, but also no "nothing to export"
report). -/
theorem c1_nothing_to_export :
    BI.process_state "Delaware" "out" (some "key") allFailB
      = ⟨.noData, [], none, 27, 18⟩
    ∧ Edu.process_state "Delaware" "output/Delaware" (some "key") allFailC
      = ⟨.concatRaised, none, none, 9, 6⟩ := by
  constructor
  · decide
  · decide

theorem flatten_if_ne {α : Type} [DecidableEq α] (l : List (List α)) :
    (if l ≠ [] then l.flatten else []) = l.flatten := by
  split
  · rfl
  · rename_i h
    simp only [ne_eq, not_not] at h
    rw [h]
    rfl

/-- With a truthy key, the Business Index county loop runs to completion
over the three hardcoded counties. -/
theorem biCountyLoop_eval (key : Option String) (env : BI.BeaEnv)
    (hk : keyTruthy key = true) :
    BI.countyLoop "Delaware" key env DELAWARE_COUNTIES =
      .done (BI.countyFrames env "New Castle" "10003"
          ++ (BI.countyFrames env "Kent" "10001"
          ++ (BI.countyFrames env "Sussex" "10005" ++ [])))
        (BI.countyAttempts env "10003" + (BI.countyAttempts env "10001"
          + (BI.countyAttempts env "10005" + 0)))
        (BI.countySleeps env "10003" + (BI.countySleeps env "10001"
          + (BI.countySleeps env "10005" + 0))) := by
  simp only [DELAWARE_COUNTIES, BI.countyLoop, BI.delGeoFips, hk, if_true,
    eq_self_iff_true]
  rfl

/-- With a truthy key, the final table is the concatenation of the nine
per-county, per-metric frames in loop order. -/
theorem bi_table_eval (env : BI.BeaEnv) (key : Option String)
    (folder : String) (hk : keyTruthy key = true) :
    (BI.process_state "Delaware" folder key env).table
      = (BI.countyFrames env "New Castle" "10003"
        ++ (BI.countyFrames env "Kent" "10001"
        ++ (BI.countyFrames env "Sussex" "10005" ++ []))).flatten := by
  have hloop := biCountyLoop_eval key env hk
  simp only [BI.process_state, BI.get_county_population_data,
    eq_self_iff_true, if_true, hloop]
  split
  · split
    · rfl
    · rfl
  · rename_i h
    simp only [ne_eq, not_not] at h
    rw [h]
    rfl

theorem nodup_flatMap_replicate {α : Type} (pairs : List (Nat × α))
    (hv : (pairs.map Prod.snd).Nodup) (hc : ∀ p ∈ pairs, p.1 ≤ 1) :
    (pairs.flatMap (fun p => List.replicate p.1 p.2)).Nodup := by
  induction pairs with
  | nil => simp
  | cons p t ih =>
    simp only [List.flatMap_cons]
    simp only [List.map_cons, List.nodup_cons] at hv
    obtain ⟨hnotin, hv2⟩ := hv
    have hc0 := hc p (List.mem_cons_self p t)
    have hrest : (t.flatMap (fun q => List.replicate q.1 q.2)).Nodup :=
      ih hv2 (fun q hq => hc q (List.mem_cons_of_mem _ hq))
    have h01 : p.1 = 0 ∨ p.1 = 1 := by omega
    rcases h01 with h0 | h1
    · simpa [h0] using hrest
    · rw [h1]
      simp only [List.replicate_succ, List.replicate_zero,
        List.cons_append, List.nil_append, List.nodup_cons]
      refine ⟨?_, hrest⟩
      intro hmem
      rw [List.mem_flatMap] at hmem
      obtain ⟨q, hq, hmemq⟩ := hmem
      rw [List.mem_replicate] at hmemq
      apply hnotin
      rw [hmemq.2]
      exact List.mem_map_of_mem Prod.snd hq

/-- C8, as stated, is false: a successful fetch whose payload holds two
records (e.g. two time periods) puts two rows with the same (region,
metric) tag into the final table, so the table does contain a duplicate
(region, metric-kind) combination. -/
theorem c8_counterexample :
    (BI.process_state "Delaware" "out" (some "key") dupEnv).table.map rowTag
      = [(some (.str "New Castle"), some (.str "GDP")),
         (some (.str "New Castle"), some (.str "GDP"))]
    ∧ ¬ ((BI.process_state "Delaware" "out" (some "key") dupEnv).table.map
        rowTag).Nodup := by decide

/-- C10: whenever `transform_census_data` receives a (rectangular) table
containing the `B01001_001E` column, it succeeds, and in its output every
row's `Area (sq mi)` is the constant 100 and every row's
`Population Density (per sq mi)` is that row's `Total Population` cell
divided by 100 — independent of the county. -/
theorem c10_density_formula (df : Df) (hr : isRect df = true)
    (hB : hasCol df "B01001_001E" = true) :
    ∃ out, transform_census_data (some df) = some out
      ∧ getColD out "Area (sq mi)" = List.replicate (nRows df) (.num 100)
      ∧ getColD out "Population Density (per sq mi)"
          = (getColD out "Total Population").map
              (fun v => cellDiv v (.num 100)) := by
  have hTP1 : hasCol (renameCol df "B01001_001E" "Total Population")
      "Total Population" = true :=
    hasCol_renameCol_new df _ _ hB
  have hTP2 : hasCol
      (setCol (renameCol df "B01001_001E" "Total Population")
        "Total Population"
        ((getColD (renameCol df "B01001_001E" "Total Population")
          "Total Population").map toNumericCell))
      "Total Population" = true :=
    hasCol_setCol_self _ _ _
  have hTP3 : hasCol
      (setColConst
        (setCol (renameCol df "B01001_001E" "Total Population")
          "Total Population"
          ((getColD (renameCol df "B01001_001E" "Total Population")
            "Total Population").map toNumericCell))
        "Area (sq mi)" (.num 100))
      "Total Population" = true := by
    unfold setColConst
    rw [hasCol_setCol_ne _ _ _ _ (by decide)]
    exact hTP2
  have harea3 : hasCol
      (setColConst
        (setCol (renameCol df "B01001_001E" "Total Population")
          "Total Population"
          ((getColD (renameCol df "B01001_001E" "Total Population")
            "Total Population").map toNumericCell))
        "Area (sq mi)" (.num 100))
      "Area (sq mi)" = true := by
    unfold setColConst
    exact hasCol_setCol_self _ _ _
  have hlen1 : (getColD (renameCol df "B01001_001E" "Total Population")
      "Total Population").length = nRows df := by
    obtain ⟨col, hcol⟩ := Option.isSome_iff_exists.mp hTP1
    rw [getColD, hcol, Option.getD_some]
    obtain ⟨k, hk⟩ := lookup_renameCol_values df _ _ _ col hcol
    exact rect_mem_length df hr k col hk
  have hnR2 : nRows
      (setCol (renameCol df "B01001_001E" "Total Population")
        "Total Population"
        ((getColD (renameCol df "B01001_001E" "Total Population")
          "Total Population").map toNumericCell))
      = nRows df := by
    rw [nRows_setCol_keep _ _ _ hTP1 (by simp), nRows_renameCol]
  refine ⟨setCol
      (setColConst
        (setCol (renameCol df "B01001_001E" "Total Population")
          "Total Population"
          ((getColD (renameCol df "B01001_001E" "Total Population")
            "Total Population").map toNumericCell))
        "Area (sq mi)" (.num 100))
      "Population Density (per sq mi)"
      (List.zipWith cellDiv
        (getColD (setColConst
        (setCol (renameCol df "B01001_001E" "Total Population")
          "Total Population"
          ((getColD (renameCol df "B01001_001E" "Total Population")
            "Total Population").map toNumericCell))
        "Area (sq mi)" (.num 100)) "Total Population")
        (getColD (setColConst
        (setCol (renameCol df "B01001_001E" "Total Population")
          "Total Population"
          ((getColD (renameCol df "B01001_001E" "Total Population")
            "Total Population").map toNumericCell))
        "Area (sq mi)" (.num 100)) "Area (sq mi)")), ?_, ?_, ?_⟩
  · simp only [transform_census_data, hB, harea3, hTP3, Bool.and_self,
      if_true]
  · -- the Area column of the output
    rw [getColD_setCol_ne _ _ _ _ (by decide)]
    unfold setColConst
    rw [getColD_setCol_self, hnR2]
  · -- the Density column of the output
    rw [getColD_setCol_self, getColD_setCol_ne _ _ _ _ (by decide)]
    have htp3v : getColD
        (setColConst
          (setCol (renameCol df "B01001_001E" "Total Population")
            "Total Population"
            ((getColD (renameCol df "B01001_001E" "Total Population")
              "Total Population").map toNumericCell))
          "Area (sq mi)" (.num 100))
        "Total Population"
        = (getColD (renameCol df "B01001_001E" "Total Population")
            "Total Population").map toNumericCell := by
      unfold setColConst
      rw [getColD_setCol_ne _ _ _ _ (by decide), getColD_setCol_self]
    have hareav : getColD
        (setColConst
          (setCol (renameCol df "B01001_001E" "Total Population")
            "Total Population"
            ((getColD (renameCol df "B01001_001E" "Total Population")
              "Total Population").map toNumericCell))
          "Area (sq mi)" (.num 100))
        "Area (sq mi)"
        = List.replicate
            (((getColD (renameCol df "B01001_001E" "Total Population")
              "Total Population").map toNumericCell).length)
            (CellVal.num 100) := by
      unfold setColConst
      rw [getColD_setCol_self, hnR2]
      simp [hlen1]
    rw [htp3v, hareav, zipWith_replicate_self]

/-- Witness for `c10_density_formula` on a concrete one-row table. -/
theorem c10_density_formula_witness :
    isRect c10df = true ∧ hasCol c10df "B01001_001E" = true
    ∧ (∃ out, transform_census_data (some c10df) = some out
      ∧ getColD out "Area (sq mi)" = List.replicate (nRows c10df) (.num 100)
      ∧ getColD out "Population Density (per sq mi)"
          = (getColD out "Total Population").map
              (fun v => cellDiv v (.num 100))) :=
  ⟨by decide, by decide, c10_density_formula c10df (by decide) (by decide)⟩

theorem lookup_renameCol_other (df : Df) (old nw c : String)
    (h1 : c ≠ old) (h2 : c ≠ nw) :
    List.lookup c (renameCol df old nw) = List.lookup c df := by
  induction df with
  | nil => rfl
  | cons p t ih =>
    obtain ⟨a, b⟩ := p
    by_cases ha : a = old
    · subst ha
      have hhd : renameCol ((a, b) :: t) a nw = (nw, b) :: renameCol t a nw := by
        simp [renameCol]
      rw [hhd, lookup_cons_pair, if_neg h2, lookup_cons_pair, if_neg h1]
      exact ih
    · have hhd : renameCol ((a, b) :: t) old nw
          = (a, b) :: renameCol t old nw := by
        simp [renameCol, ha]
      rw [hhd, lookup_cons_pair, lookup_cons_pair]
      by_cases hca : c = a
      · rw [if_pos hca, if_pos hca]
      · rw [if_neg hca, if_neg hca]
        exact ih

theorem getColD_renameCol_other (df : Df) (old nw c : String)
    (h1 : c ≠ old) (h2 : c ≠ nw) :
    getColD (renameCol df old nw) c = getColD df c := by
  simp [getColD, lookup_renameCol_other df old nw c h1 h2]

/-- `transform_census_data` always succeeds on a present frame and never
touches the `County` column. -/
theorem transform_census_county (df : Df) :
    ∃ out, transform_census_data (some df) = some out
      ∧ getColD out "County" = getColD df "County" := by
  by_cases hB : hasCol df "B01001_001E" = true
  · have harea3 : hasCol
        (setColConst
          (setCol (renameCol df "B01001_001E" "Total Population")
            "Total Population"
            ((getColD (renameCol df "B01001_001E" "Total Population")
              "Total Population").map toNumericCell))
          "Area (sq mi)" (.num 100))
        "Area (sq mi)" = true := by
      unfold setColConst
      exact hasCol_setCol_self _ _ _
    have hTP3 : hasCol
        (setColConst
          (setCol (renameCol df "B01001_001E" "Total Population")
            "Total Population"
            ((getColD (renameCol df "B01001_001E" "Total Population")
              "Total Population").map toNumericCell))
          "Area (sq mi)" (.num 100))
        "Total Population" = true := by
      unfold setColConst
      rw [hasCol_setCol_ne _ _ _ _ (by decide)]
      exact hasCol_setCol_self _ _ _
    refine ⟨setCol
        (setColConst
          (setCol (renameCol df "B01001_001E" "Total Population")
            "Total Population"
            ((getColD (renameCol df "B01001_001E" "Total Population")
              "Total Population").map toNumericCell))
          "Area (sq mi)" (.num 100))
        "Population Density (per sq mi)"
        (List.zipWith cellDiv
          (getColD (setColConst
          (setCol (renameCol df "B01001_001E" "Total Population")
            "Total Population"
            ((getColD (renameCol df "B01001_001E" "Total Population")
              "Total Population").map toNumericCell))
          "Area (sq mi)" (.num 100)) "Total Population")
          (getColD (setColConst
          (setCol (renameCol df "B01001_001E" "Total Population")
            "Total Population"
            ((getColD (renameCol df "B01001_001E" "Total Population")
              "Total Population").map toNumericCell))
          "Area (sq mi)" (.num 100)) "Area (sq mi)")), ?_, ?_⟩
    · simp only [transform_census_data, hB, harea3, hTP3, Bool.and_self,
        if_true]
    · rw [getColD_setCol_ne _ _ _ _ (by decide)]
      unfold setColConst
      rw [getColD_setCol_ne _ _ _ _ (by decide),
        getColD_setCol_ne _ _ _ _ (by decide)]
      exact getColD_renameCol_other df _ _ _ (by decide) (by decide)
  · refine ⟨df, ?_, rfl⟩
    simp only [Bool.not_eq_true] at hB
    simp [transform_census_data, hB]

theorem lookup_map_self_key {α : Type} (cols : List String) (g : String → α)
    (c : String) (hc : c ∈ cols) :
    List.lookup c (cols.map (fun x => (x, g x))) = some (g c) := by
  induction cols with
  | nil => simp at hc
  | cons x t ih =>
    rw [List.map_cons, lookup_cons_pair]
    by_cases hx : c = x
    · subst hx
      rw [if_pos rfl]
    · rw [if_neg hx]
      refine ih ?_
      rcases List.mem_cons.mp hc with h | h
      · exact absurd h hx
      · exact h

theorem mem_firstDedup_aux (l : List String) :
    ∀ (acc : List String) (c : String),
    (c ∈ l.foldl (fun acc x => if acc.contains x then acc else acc ++ [x]) acc)
      ↔ (c ∈ acc ∨ c ∈ l) := by
  induction l with
  | nil => intro acc c; simp
  | cons x t ih =>
    intro acc c
    rw [List.foldl_cons, ih]
    by_cases hx : acc.contains x = true
    · rw [if_pos hx]
      constructor
      · rintro (h | h)
        · exact Or.inl h
        · exact Or.inr (List.mem_cons_of_mem _ h)
      · rintro (h | h)
        · exact Or.inl h
        · rcases List.mem_cons.mp h with rfl | h2
          · exact Or.inl (by simpa using hx)
          · exact Or.inr h2
    · rw [if_neg hx]
      simp only [List.mem_append, List.mem_cons, List.not_mem_nil, or_false]
      tauto

theorem mem_firstDedup (l : List String) (c : String) :
    c ∈ firstDedup l ↔ c ∈ l := by
  unfold firstDedup
  rw [mem_firstDedup_aux]
  simp

/-- The column a `pd.concat` produces, when at least one frame carries
it: the frames' columns in order, `NaN`-padded where absent. -/
theorem getColD_dfConcat (fs : List Df) (c : String)
    (h : ∃ f, f ∈ fs ∧ hasCol f c = true) :
    getColD (dfConcat fs) c
      = fs.flatMap (fun f => if hasCol f c then getColD f c
          else List.replicate (nRows f) CellVal.nan) := by
  obtain ⟨f, hf, hcol⟩ := h
  have hc : c ∈ firstDedup (fs.flatMap (fun f => f.map Prod.fst)) := by
    rw [mem_firstDedup, List.mem_flatMap]
    refine ⟨f, hf, ?_⟩
    rw [hasCol] at hcol
    obtain ⟨v, hv⟩ := Option.isSome_iff_exists.mp hcol
    exact List.mem_map_of_mem Prod.fst (lookup_mem f c v hv)
  unfold dfConcat getColD
  rw [lookup_map_self_key _ _ _ hc, Option.getD_some]

theorem countyFrame_hasCol_county (d : List (String × String)) (c : String) :
    hasCol (Edu.countyFrame d c) "County" = true := by
  simp only [Edu.countyFrame, setColConst]
  rw [hasCol_setCol_ne _ _ _ _ (by decide), hasCol_setCol_ne _ _ _ _ (by decide),
    hasCol_setCol_ne _ _ _ _ (by decide), hasCol_setCol_ne _ _ _ _ (by decide)]
  exact hasCol_setCol_self _ _ _

theorem countyFrame_county_col (d : List (String × String)) (c : String)
    (hd : d ≠ []) :
    getColD (Edu.countyFrame d c) "County" = [CellVal.str c] := by
  obtain ⟨p, t, rfl⟩ := List.exists_cons_of_ne_nil hd
  simp only [Edu.countyFrame, setColConst]
  rw [getColD_setCol_ne _ _ _ _ (by decide), getColD_setCol_ne _ _ _ _ (by decide),
    getColD_setCol_ne _ _ _ _ (by decide), getColD_setCol_ne _ _ _ _ (by decide),
    getColD_setCol_self]
  obtain ⟨k, v⟩ := p
  simp [dfOfRecord, nRows]

theorem eduHere_hasCol (env : Edu.CensusEnv) (c : String) :
    ∀ f ∈ eduHere env c, hasCol f "County" = true := by
  intro f hf
  unfold eduHere at hf
  cases hres : (get_census_data_by_county c (env c) 3).result with
  | none => rw [hres] at hf; simp [Edu.dictTruthy] at hf
  | some d =>
    rw [hres] at hf
    cases d with
    | nil => simp [Edu.dictTruthy] at hf
    | cons x t =>
      simp only [Edu.dictTruthy, if_true, List.mem_singleton] at hf
      subst hf
      exact countyFrame_hasCol_county (x :: t) c

theorem eduHere_county_contrib (env : Edu.CensusEnv) (c : String) :
    (eduHere env c).flatMap (fun f => if hasCol f "County" then getColD f "County"
        else List.replicate (nRows f) CellVal.nan)
      = (if Edu.dictTruthy (get_census_data_by_county c (env c) 3).result
          then [CellVal.str c] else []) := by
  unfold eduHere
  cases hres : (get_census_data_by_county c (env c) 3).result with
  | none => simp [Edu.dictTruthy]
  | some d =>
    cases d with
    | nil => simp [Edu.dictTruthy]
    | cons x t =>
      simp [Edu.dictTruthy, countyFrame_hasCol_county,
        countyFrame_county_col (x :: t) c (List.cons_ne_nil x t)]

theorem eduHere_eq_nil (env : Edu.CensusEnv) (c : String) :
    eduHere env c = []
      ↔ Edu.dictTruthy (get_census_data_by_county c (env c) 3).result = false := by
  unfold eduHere
  cases hres : (get_census_data_by_county c (env c) 3).result with
  | none => simp [Edu.dictTruthy]
  | some d =>
    cases d with
    | nil => simp [Edu.dictTruthy]
    | cons x t => simp [Edu.dictTruthy]

/-- With a truthy key, the Education county loop runs to completion over
the three hardcoded counties. -/
theorem eduCountyLoop_eval (key : Option String) (env : Edu.CensusEnv)
    (hk : keyTruthy key = true) :
    Edu.countyLoop key env DELAWARE_COUNTIES =
      .done (eduHere env "New Castle" ++ (eduHere env "Kent"
          ++ (eduHere env "Sussex" ++ [])))
        ((get_census_data_by_county "New Castle" (env "New Castle") 3).attempts
          + ((get_census_data_by_county "Kent" (env "Kent") 3).attempts
          + ((get_census_data_by_county "Sussex" (env "Sussex") 3).attempts + 0)))
        ((get_census_data_by_county "New Castle" (env "New Castle") 3).sleeps
          + ((get_census_data_by_county "Kent" (env "Kent") 3).sleeps
          + ((get_census_data_by_county "Sussex" (env "Sussex") 3).sleeps + 0))) := by
  simp only [DELAWARE_COUNTIES, Edu.countyLoop, hk, if_true, eq_self_iff_true,
    eduHere]

/-- The predicted Education County column never repeats a county. -/
theorem eduExpectedCounties_nodup (env : Edu.CensusEnv) :
    (eduExpectedCounties env).Nodup := by
  unfold eduExpectedCounties DELAWARE_COUNTIES
  simp only [List.flatMap_cons, List.flatMap_nil, List.append_nil]
  by_cases h1 : Edu.dictTruthy
      (get_census_data_by_county "New Castle" (env "New Castle") 3).result = true <;>
    by_cases h2 : Edu.dictTruthy
        (get_census_data_by_county "Kent" (env "Kent") 3).result = true <;>
      by_cases h3 : Edu.dictTruthy
          (get_census_data_by_county "Sussex" (env "Sussex") 3).result = true <;>
        simp [h1, h2, h3]

/-- With a truthy key, the County column of the Education table lists the
successfully fetched counties in iteration order (and is empty when the
run raised before building a table). -/
theorem edu_county_column (env : Edu.CensusEnv) (key : Option String)
    (folder : String) (hk : keyTruthy key = true) :
    countyColOf (Edu.process_state "Delaware" folder key env).table
      = eduExpectedCounties env := by
  have hloop := eduCountyLoop_eval key env hk
  simp only [Edu.process_state, Edu.get_county_population_data,
    eq_self_iff_true, if_true, hloop]
  by_cases hFe : eduHere env "New Castle" ++ (eduHere env "Kent"
      ++ (eduHere env "Sussex" ++ [])) = []
  · simp only [hFe]
    simp only [List.append_eq_nil] at hFe
    obtain ⟨h1, h2, h3, -⟩ := hFe
    have t1 := (eduHere_eq_nil env "New Castle").mp h1
    have t2 := (eduHere_eq_nil env "Kent").mp h2
    have t3 := (eduHere_eq_nil env "Sussex").mp h3
    simp [countyColOf, eduExpectedCounties, DELAWARE_COUNTIES, t1, t2, t3]
  · obtain ⟨x, F2, hcons⟩ := List.exists_cons_of_ne_nil hFe
    have hxmem : x ∈ eduHere env "New Castle" ++ (eduHere env "Kent"
        ++ (eduHere env "Sussex" ++ [])) := by
      rw [hcons]
      exact List.mem_cons_self _ _
    have hxcol : hasCol x "County" = true := by
      rcases List.mem_append.mp hxmem with h | h
      · exact eduHere_hasCol env "New Castle" x h
      · rcases List.mem_append.mp h with h2 | h2
        · exact eduHere_hasCol env "Kent" x h2
        · rcases List.mem_append.mp h2 with h3 | h3
          · exact eduHere_hasCol env "Sussex" x h3
          · simp at h3
    obtain ⟨out0, heq, hcounty⟩ := transform_census_county
      (dfConcat (eduHere env "New Castle" ++ (eduHere env "Kent"
        ++ (eduHere env "Sussex" ++ []))))
    rw [hcons] at heq hcounty
    simp only [hcons, heq]
    have hcol : getColD (dfConcat (eduHere env "New Castle"
        ++ (eduHere env "Kent" ++ (eduHere env "Sussex" ++ [])))) "County"
        = eduExpectedCounties env := by
      rw [getColD_dfConcat _ "County" ⟨x, hxmem, hxcol⟩]
      simp only [List.flatMap_append, List.flatMap_nil, List.append_nil,
        eduHere_county_contrib, eduExpectedCounties, DELAWARE_COUNTIES,
        List.flatMap_cons]
    rw [hcons] at hcol
    split
    · simp only [countyColOf]
      rw [hcounty, hcol]
    · simp only [countyColOf]
      rw [hcounty, hcol]

/-- C8 (amended): with a truthy key, in both pipelines the final table's
rows appear in insertion order equal to region iteration order crossed
with metric iteration order.  Business Index: each (region, metric)
combination contributes its block of identically tagged rows, and
provided every successful fetch payload holds at most one record, the
table contains no duplicate (region, metric) combination.  Education:
the single-metric table carries the successfully fetched counties in
iteration order, one row each, so its County column never holds a
duplicate, unconditionally. -/
theorem c8_row_order (env : BI.BeaEnv) (envC : Edu.CensusEnv)
    (key : Option String) (folder : String) (hk : keyTruthy key = true) :
    (BI.process_state "Delaware" folder key env).table.map rowTag
      = biExpectedTags env
    ∧ ((∀ cg ∈ biRegionCodes, ∀ m ∈ biMetricTags,
          biCollected env cg.2 m.2 ≤ 1) →
        ((BI.process_state "Delaware" folder key env).table.map rowTag).Nodup)
    ∧ (countyColOf (Edu.process_state "Delaware" folder key envC).table
          = eduExpectedCounties envC
        ∧ (countyColOf (Edu.process_state "Delaware" folder key envC).table).Nodup) := by
  have htable := bi_table_eval env key folder hk
  have h1 : (BI.process_state "Delaware" folder key env).table.map rowTag
      = biExpectedTags env := by
    rw [htable]
    simp only [List.flatten_append, List.flatten_nil, List.map_append,
      List.append_nil, List.map_nil, countyFrames_tags, biExpectedTags,
      biRegionCodes, biMetricTags, biCollected, List.flatMap_cons,
      List.flatMap_nil, List.append_assoc]
  refine ⟨h1, fun hb => ?_, edu_county_column envC key folder hk, ?_⟩
  case refine_2 =>
    rw [edu_county_column envC key folder hk]
    exact eduExpectedCounties_nodup envC
  rw [h1]
  have hpairs : biExpectedTags env
      = (biPairs env).flatMap (fun p => List.replicate p.1 p.2) := by
    simp only [biExpectedTags, biPairs, biRegionCodes, biMetricTags,
      List.flatMap_cons, List.flatMap_nil, List.flatMap_append,
      List.map_cons, List.map_nil, List.append_assoc, List.append_nil]
  rw [hpairs]
  apply nodup_flatMap_replicate
  · have hsnd : (biPairs env).map Prod.snd
        = [(some (.str "New Castle"), some (.str "GDP")),
           (some (.str "New Castle"), some (.str "GDP_CAPITA")),
           (some (.str "New Castle"), some (.str "ANNUAL_GDP_GROWTH")),
           (some (.str "Kent"), some (.str "GDP")),
           (some (.str "Kent"), some (.str "GDP_CAPITA")),
           (some (.str "Kent"), some (.str "ANNUAL_GDP_GROWTH")),
           (some (.str "Sussex"), some (.str "GDP")),
           (some (.str "Sussex"), some (.str "GDP_CAPITA")),
           (some (.str "Sussex"), some (.str "ANNUAL_GDP_GROWTH"))] := by
      simp [biPairs, biRegionCodes, biMetricTags]
    rw [hsnd]
    decide
  · intro p hp
    simp only [biPairs, biRegionCodes, biMetricTags, List.flatMap_cons,
      List.flatMap_nil, List.map_cons, List.map_nil, List.append_nil,
      List.cons_append, List.nil_append, List.mem_cons,
      List.not_mem_nil, or_false] at hp
    rcases hp with rfl | rfl | rfl | rfl | rfl | rfl | rfl | rfl | rfl
    · exact hb ("New Castle", "10003") (by decide)
        ("GDP", BEA_LINE_CODE_GDP) (by decide)
    · exact hb ("New Castle", "10003") (by decide)
        ("GDP_CAPITA", BEA_LINE_CODE_GDP_CAPITA) (by decide)
    · exact hb ("New Castle", "10003") (by decide)
        ("ANNUAL_GDP_GROWTH", BEA_LINE_CODE_ANNUAL_GDP_GROWTH) (by decide)
    · exact hb ("Kent", "10001") (by decide)
        ("GDP", BEA_LINE_CODE_GDP) (by decide)
    · exact hb ("Kent", "10001") (by decide)
        ("GDP_CAPITA", BEA_LINE_CODE_GDP_CAPITA) (by decide)
    · exact hb ("Kent", "10001") (by decide)
        ("ANNUAL_GDP_GROWTH", BEA_LINE_CODE_ANNUAL_GDP_GROWTH) (by decide)
    · exact hb ("Sussex", "10005") (by decide)
        ("GDP", BEA_LINE_CODE_GDP) (by decide)
    · exact hb ("Sussex", "10005") (by decide)
        ("GDP_CAPITA", BEA_LINE_CODE_GDP_CAPITA) (by decide)
    · exact hb ("Sussex", "10005") (by decide)
        ("ANNUAL_GDP_GROWTH", BEA_LINE_CODE_ANNUAL_GDP_GROWTH) (by decide)

/-- Witness for `c8_row_order`: the BEA oracle fails every request
(every payload has at most one record, vacuously) and the census oracle
answers every county with a one-row body. -/
theorem c8_row_order_witness :
    (BI.process_state "Delaware" "out" (some "key") allFailB).table.map rowTag
      = biExpectedTags allFailB
    ∧ ((BI.process_state "Delaware" "out" (some "key") allFailB).table.map
        rowTag).Nodup
    ∧ countyColOf (Edu.process_state "Delaware" "out" (some "key") c8CEnv).table
        = eduExpectedCounties c8CEnv
    ∧ (countyColOf
        (Edu.process_state "Delaware" "out" (some "key") c8CEnv).table).Nodup :=
  ⟨(c8_row_order allFailB c8CEnv (some "key") "out" (by decide)).1,
   (c8_row_order allFailB c8CEnv (some "key") "out" (by decide)).2.1 (by decide),
   (c8_row_order allFailB c8CEnv (some "key") "out" (by decide)).2.2.1,
   (c8_row_order allFailB c8CEnv (some "key") "out" (by decide)).2.2.2⟩
